import Mathlib

/-!
Shallow embedding of the per-frame simulation core of the Jumpy Frog
endless vertical platformer (the later of the two game versions in the
repository, `src/unnamed/part_001`; one definition is additionally taken
from the earlier version `src/unnamed/part_000` where noted).

Conventions of the embedding:
* JavaScript numbers used for positions and velocities are modelled as `ℚ`
  (all operations in those code paths are field operations and comparisons),
  except in the magnet-attraction and laser-aiming code, which calls
  `Math.sqrt` / `Math.atan2`; those two blocks are modelled over `ℝ`.
* Frame counters, hit counters and the score are modelled as `ℤ`.
* Purely cosmetic state that no gameplay rule ever reads (particles, clouds,
  platform colors, the sun rotation) is omitted from the model.
* The mutable per-entity loops of `update` are rendered as structural
  recursions over lists, processing elements in the same order as the
  JavaScript loops (ascending for `for..of` loops, descending for the
  index-decrementing loops over bullets and enemies).
-/

/-! ### Constants (src/unnamed/part_001, lines 3-57) -/

def CANVAS_WIDTH : ℚ := 400
def CANVAS_HEIGHT : ℚ := 700
def GRAVITY : ℚ := 0.4
def JUMP_FORCE : ℚ := -14
def MOVE_SPEED : ℚ := 6
def ROCKET_SPEED : ℚ := -20
def PROPELLER_SPEED : ℚ := -8
def CAPE_GRAVITY : ℚ := 0.08
def CAPE_MAX_FALL_SPEED : ℚ := 2
def SPRING_SHOES_JUMP_MULTIPLIER : ℚ := 1.6
def MAGNET_RANGE : ℚ := 150
def MAGNET_PULL_SPEED : ℚ := 8
def SUMO_BOUNCE_FORCE : ℚ := -18
def INVINCIBILITY_DURATION : ℤ := 90

/-- POWER_CONFIG.rocket.duration (line 42). -/
def rocketDuration : ℤ := 90
/-- POWER_CONFIG.shield.maxHits (line 45). -/
def shieldMaxHits : ℤ := 2
/-- POWER_CONFIG.propeller.duration (line 46). -/
def propellerDuration : ℤ := 150
/-- POWER_CONFIG.springShoes.jumps (line 47). -/
def springShoesInitialJumps : ℤ := 5
/-- POWER_CONFIG.magnet.duration (line 48). -/
def magnetDuration : ℤ := 360
/-- POWER_CONFIG.sumo.duration (line 49). -/
def sumoDuration : ℤ := 150
/-- POWER_CONFIG.laser.cooldown (line 50). -/
def laserCooldown : ℤ := 15
/-- POWER_CONFIG.shotgun.cooldown (line 51). -/
def shotgunCooldown : ℤ := 40
/-- POWER_CONFIG.tommyGun.cooldown (line 52). -/
def tommyGunCooldown : ℤ := 5

/-! ### Data model -/

/-- The 11 power-up type tags, POWERUP_TYPES (line 56). -/
inductive PowerType where
  | rocket | cape | spring | shield | propeller | springShoes
  | magnet | sumo | laser | shotgun | tommyGun
  deriving DecidableEq, Repr

/-- Platform type variants (generatePlatform, lines 231-242). -/
inductive PlatformType where
  | normal | moving | breakable | spring
  deriving DecidableEq, Repr

/-- Gem value tiers, GEM_VALUES (line 21). -/
inductive GemType where
  | blue | orange | purple
  deriving DecidableEq, Repr

/-- Bullet type tag, mirrors the firing weapon (lines 1240, 1251, 1263). -/
inductive BulletType where
  | laser | shotgun | tommyGun
  deriving DecidableEq, Repr

/-- GEM_VALUES (line 21). -/
def gemValue : GemType → ℤ
  | .blue => 10
  | .orange => 25
  | .purple => 50

/-- The actor record, createFrog (lines 195-228).  Positions and velocities
are `ℚ`, frame counters are `ℤ`, the per-ability boolean flags are `Bool`. -/
structure Frog where
  x : ℚ
  y : ℚ
  vx : ℚ
  vy : ℚ
  width : ℚ
  height : ℚ
  hasRocket : Bool
  rocketTimer : ℤ
  hasPropeller : Bool
  propellerTimer : ℤ
  propellerAngle : ℚ
  hasSpringShoes : Bool
  springShoesJumps : ℤ
  hasMagnet : Bool
  magnetTimer : ℤ
  hasSumo : Bool
  sumoTimer : ℤ
  hasCape : Bool
  hasShield : Bool
  shieldHits : ℤ
  hasLaser : Bool
  hasShotgun : Bool
  hasTommyGun : Bool
  weaponCooldown : ℤ
  invincible : Bool
  invincibleTimer : ℤ
  flashTimer : ℤ
  deriving DecidableEq, Repr

/-- Platform record (generatePlatform, lines 244-253; the cosmetic color
field is omitted). -/
structure Platform where
  x : ℚ
  y : ℚ
  width : ℚ
  height : ℚ
  type : PlatformType
  vx : ℚ
  broken : Bool
  deriving DecidableEq, Repr

/-- Collectible gem record (lines 260-268). -/
structure Gem where
  x : ℚ
  y : ℚ
  width : ℚ
  height : ℚ
  type : GemType
  collected : Bool
  animFrame : ℚ
  deriving DecidableEq, Repr

/-- Hostile record (lines 273-281). -/
structure Enemy where
  x : ℚ
  y : ℚ
  width : ℚ
  height : ℚ
  vx : ℚ
  health : ℤ
  deriving DecidableEq, Repr

/-- Ability-pickup record (lines 286-294). -/
structure Powerup where
  x : ℚ
  y : ℚ
  width : ℚ
  height : ℚ
  type : PowerType
  collected : Bool
  animFrame : ℚ
  deriving DecidableEq, Repr

/-- Projectile record (lines 1240, 1246-1252, 1258-1264). -/
structure Bullet where
  x : ℚ
  y : ℚ
  vx : ℚ
  vy : ℚ
  width : ℚ
  height : ℚ
  type : BulletType
  deriving DecidableEq, Repr

/-! ### Collision utility -/

/-- An axis-aligned box, the `{x, y, width, height}` shape that
`checkCollision` consumes. -/
structure Rect where
  x : ℚ
  y : ℚ
  width : ℚ
  height : ℚ
  deriving DecidableEq, Repr

/-- checkCollision (lines 61-66): axis-aligned overlap with inset padding. -/
def checkCollision (a b : Rect) (padding : ℚ) : Bool :=
  (a.x + padding < b.x + b.width - padding) &&
  (a.x + a.width - padding > b.x + padding) &&
  (a.y + padding < b.y + b.height - padding) &&
  (a.y + a.height - padding > b.y + padding)

def Frog.rect (f : Frog) : Rect := ⟨f.x, f.y, f.width, f.height⟩

def Gem.rect (g : Gem) : Rect := ⟨g.x, g.y, g.width, g.height⟩

def Enemy.rect (e : Enemy) : Rect := ⟨e.x, e.y, e.width, e.height⟩

def Powerup.rect (p : Powerup) : Rect := ⟨p.x, p.y, p.width, p.height⟩

/-! ### Ability state machine helpers (lines 133-169) -/

/-- hasAnyPower (lines 134-138). -/
def hasAnyPower (f : Frog) : Bool :=
  f.hasRocket || f.hasCape || f.hasShield || f.hasPropeller ||
  f.hasSpringShoes || f.hasMagnet || f.hasSumo ||
  f.hasLaser || f.hasShotgun || f.hasTommyGun

/-- hasPersistentPower (lines 141-143): the powers eligible for the
fall-rescue. -/
def hasPersistentPower (f : Frog) : Bool :=
  f.hasCape || f.hasShield || f.hasLaser || f.hasShotgun || f.hasTommyGun

/-- hasWeapon (lines 146-148). -/
def hasWeapon (f : Frog) : Bool :=
  f.hasLaser || f.hasShotgun || f.hasTommyGun

/-- clearAllPowers (lines 151-169): zero every ability flag, timer, counter
and the weapon cooldown. -/
def clearAllPowers (f : Frog) : Frog :=
  { f with
    hasRocket := false, rocketTimer := 0,
    hasCape := false,
    hasShield := false, shieldHits := 0,
    hasPropeller := false, propellerTimer := 0,
    hasSpringShoes := false, springShoesJumps := 0,
    hasMagnet := false, magnetTimer := 0,
    hasSumo := false, sumoTimer := 0,
    hasLaser := false,
    hasShotgun := false,
    hasTommyGun := false,
    weaponCooldown := 0 }

/-- Number of ability flags currently set on the actor (the ten booleans
enumerated by hasAnyPower). -/
def powersCount (f : Frog) : ℕ :=
  (if f.hasRocket then 1 else 0) + (if f.hasCape then 1 else 0) +
  (if f.hasShield then 1 else 0) + (if f.hasPropeller then 1 else 0) +
  (if f.hasSpringShoes then 1 else 0) + (if f.hasMagnet then 1 else 0) +
  (if f.hasSumo then 1 else 0) + (if f.hasLaser then 1 else 0) +
  (if f.hasShotgun then 1 else 0) + (if f.hasTommyGun then 1 else 0)

/-! ### Pickup acquisition (update, lines 1157-1214) -/

/-- The switch over `powerup.type` in the collection handler
(lines 1167-1210), applied after `clearAllPowers`. -/
def applyPower (f : Frog) : PowerType → Frog
  | .rocket => { f with hasRocket := true, rocketTimer := rocketDuration }
  | .cape => { f with hasCape := true }
  | .spring => { f with vy := JUMP_FORCE * 2.5 }
  | .shield => { f with hasShield := true, shieldHits := 0 }
  | .propeller => { f with hasPropeller := true, propellerTimer := propellerDuration }
  | .springShoes => { f with hasSpringShoes := true, springShoesJumps := springShoesInitialJumps }
  | .magnet => { f with hasMagnet := true, magnetTimer := magnetDuration }
  | .sumo => { f with hasSumo := true, sumoTimer := sumoDuration }
  | .laser => { f with hasLaser := true, weaponCooldown := 0 }
  | .shotgun => { f with hasShotgun := true, weaponCooldown := 0 }
  | .tommyGun => { f with hasTommyGun := true, weaponCooldown := 0 }

/-- One iteration of the powerup-collection loop (lines 1157-1213): skip
collected pickups, advance the animation phase, and when the actor overlaps
the pickup mark it collected, clear the previous powers and install the new
one. -/
def collectPowerup (f : Frog) (p : Powerup) : Frog × Powerup :=
  if p.collected then (f, p)
  else
    let p := { p with animFrame := p.animFrame + 0.1 }
    if checkCollision f.rect p.rect 0 then
      (applyPower (clearAllPowers f) p.type, { p with collected := true })
    else (f, p)

/-! ### Physics and timer step (update, lines 1029-1078) -/

/-- The three sampled input flags (lines 188-189). -/
structure Keys where
  left : Bool
  right : Bool
  shoot : Bool
  deriving DecidableEq, Repr

/-- Horizontal movement from input flags (lines 1030-1032). -/
def moveInput (keys : Keys) (f : Frog) : Frog :=
  if keys.left then { f with vx := -MOVE_SPEED }
  else if keys.right then { f with vx := MOVE_SPEED }
  else { f with vx := f.vx * 0.85 }

/-- Power-up specific movement physics (lines 1035-1049): the
rocket / propeller / cape / gravity priority chain, with the rocket and
propeller frame counters decremented and their flags dropped once the
counter is no longer positive. -/
def flightPhysics (f : Frog) : Frog :=
  if f.hasRocket then
    let t := f.rocketTimer - 1
    { f with vy := ROCKET_SPEED, rocketTimer := t, hasRocket := decide (0 < t) }
  else if f.hasPropeller then
    let t := f.propellerTimer - 1
    { f with vy := PROPELLER_SPEED, propellerAngle := f.propellerAngle + 0.5,
             propellerTimer := t, hasPropeller := decide (0 < t) }
  else if f.hasCape && decide (f.vy > 0) then
    { f with vy := min (f.vy + CAPE_GRAVITY) CAPE_MAX_FALL_SPEED }
  else
    { f with vy := f.vy + GRAVITY }

/-- Magnet frame-counter update (lines 1052-1055). -/
def magnetTick (f : Frog) : Frog :=
  if f.hasMagnet then
    let t := f.magnetTimer - 1
    { f with magnetTimer := t, hasMagnet := decide (0 < t) }
  else f

/-- Sumo frame-counter update (lines 1056-1059). -/
def sumoTick (f : Frog) : Frog :=
  if f.hasSumo then
    let t := f.sumoTimer - 1
    { f with sumoTimer := t, hasSumo := decide (0 < t) }
  else f

/-- Invincibility frame-counter update (lines 1062-1068). -/
def invincibilityTick (f : Frog) : Frog :=
  if f.invincible then
    let t := f.invincibleTimer - 1
    { f with invincibleTimer := t, flashTimer := t, invincible := decide (0 < t) }
  else f

/-- Weapon cooldown decrement (line 1071). -/
def cooldownTick (f : Frog) : Frog :=
  if f.weaponCooldown > 0 then { f with weaponCooldown := f.weaponCooldown - 1 } else f

/-- Position integration (lines 1073-1074). -/
def integratePosition (f : Frog) : Frog :=
  { f with x := f.x + f.vx, y := f.y + f.vy }

/-- Horizontal screen wrap (lines 1077-1078), two sequential checks on the
already-updated x. -/
def screenWrap (f : Frog) : Frog :=
  let f := if f.x > CANVAS_WIDTH then { f with x := -f.width } else f
  if f.x < -f.width then { f with x := CANVAS_WIDTH } else f

/-- The whole movement / timer block of one tick (lines 1029-1078), in
source order. -/
def physicsStep (keys : Keys) (f : Frog) : Frog :=
  screenWrap (integratePosition (cooldownTick (invincibilityTick
    (sumoTick (magnetTick (flightPhysics (moveInput keys f)))))))

/-! ### Camera follow and altitude score (update, lines 1081-1086) -/

/-- Camera follow (lines 1081-1086): the camera only moves upward (toward
smaller y), and on movement the score is raised to the altitude-derived
value, never lowered.  Returns the new camera offset and score. -/
def cameraFollow (f : Frog) (cameraY : ℚ) (score : ℤ) : ℚ × ℤ :=
  let targetCameraY := f.y - CANVAS_HEIGHT * 0.4
  if targetCameraY < cameraY then
    (targetCameraY, max score ⌊-targetCameraY / 10⌋)
  else (cameraY, score)

/-! ### Platform landing (update, lines 1089-1116) -/

/-- The qualifying test of the landing loop (lines 1092-1095), evaluated
against the actor's current (possibly already updated) state. -/
def landingTest (f : Frog) (p : Platform) : Bool :=
  (f.x + f.width > p.x) && (f.x < p.x + p.width) &&
  (f.y + f.height > p.y) &&
  (f.y + f.height < p.y + p.height + f.vy + 5)

/-- Body of one iteration of the landing loop (lines 1090-1114): skip broken
platforms, otherwise on a qualifying test compute the jump impulse, apply
the spring-shoes multiplier and decrement its jump counter when active,
then branch on the platform type (breakable platforms get marked broken,
spring platforms multiply the impulse by 1.5). -/
def landingStep (f : Frog) (p : Platform) : Frog × Platform :=
  if p.broken then (f, p)
  else if landingTest f p then
    let jumpForce := JUMP_FORCE
    let fj : Frog × ℚ :=
      if f.hasSpringShoes then
        let jumps := f.springShoesJumps - 1
        ({ f with springShoesJumps := jumps, hasSpringShoes := decide (0 < jumps) },
          jumpForce * SPRING_SHOES_JUMP_MULTIPLIER)
      else (f, jumpForce)
    match p.type with
    | .breakable => ({ fj.1 with vy := fj.2 }, { p with broken := true })
    | .spring => ({ fj.1 with vy := fj.2 * 1.5 }, p)
    | _ => ({ fj.1 with vy := fj.2 }, p)
  else (f, p)

/-- The landing loop over all platforms in creation order (lines 1090-1115).
There is no break: every platform is tested against the state left by the
previous iterations. -/
def landingScan (f : Frog) : List Platform → Frog × List Platform
  | [] => (f, [])
  | p :: ps =>
    let fp := landingStep f p
    let rest := landingScan fp.1 ps
    (rest.1, fp.2 :: rest.2)

/-- Platform collision phase (lines 1089-1116): the landing scan runs only
while the actor is descending and holds neither rocket nor propeller. -/
def platformCollision (f : Frog) (ps : List Platform) : Frog × List Platform :=
  if decide (f.vy > 0) && !f.hasRocket && !f.hasPropeller then landingScan f ps
  else (f, ps)

/-! ### Moving platforms (update, lines 1119-1126) -/

/-- One iteration of the moving-platform loop: translate by the stored
horizontal velocity and reflect at either screen edge. -/
def movePlatform (p : Platform) : Platform :=
  if p.type = PlatformType.moving then
    let p := { p with x := p.x + p.vx }
    if p.x ≤ 0 || p.x + p.width ≥ CANVAS_WIDTH then { p with vx := -p.vx } else p
  else p

/-! ### Gem collection (update, lines 1144-1154) -/

/-- One iteration of the gem-collection loop: skip collected gems, advance
the animation phase, and on overlap mark the gem collected and add its tier
value to the score. -/
def gemStep (f : Frog) (score : ℤ) (g : Gem) : Gem × ℤ :=
  if g.collected then (g, score)
  else
    let g := { g with animFrame := g.animFrame + 0.15 }
    if checkCollision f.rect g.rect 0 then
      ({ g with collected := true }, score + gemValue g.type)
    else (g, score)

/-- The gem-collection loop in list order (lines 1144-1154). -/
def gemPhase (f : Frog) : List Gem → ℤ → List Gem × ℤ
  | [], score => ([], score)
  | g :: gs, score =>
    let gs1 := gemStep f score g
    let rest := gemPhase f gs gs1.2
    (gs1.1 :: rest.1, rest.2)

/-! ### Projectile update (update, lines 1270-1294) -/

/-- The point-in-box bullet/enemy hit test (lines 1278-1279). -/
def bulletHitsEnemy (b : Bullet) (e : Enemy) : Bool :=
  (e.x < b.x) && (b.x < e.x + e.width) && (e.y < b.y) && (b.y < e.y + e.height)

/-- The inner enemy scan of the bullet loop (lines 1276-1287): the JS loop
walks the enemy array from the highest index down and splices out the first
hit, so this removes the last hit enemy in list order; `none` means no
enemy was hit. -/
def removeLastHit (b : Bullet) : List Enemy → Option (List Enemy)
  | [] => none
  | e :: es =>
    match removeLastHit b es with
    | some es1 => some (e :: es1)
    | none => if bulletHitsEnemy b e then some es else none

/-- Off-screen test for bullets (lines 1290-1291). -/
def bulletOffscreen (b : Bullet) (cameraY : ℚ) : Bool :=
  decide (b.x < 0) || decide (b.x > CANVAS_WIDTH) ||
  decide (b.y < cameraY - 100) || decide (b.y > cameraY + CANVAS_HEIGHT + 100)

/-- The bullet update loop (lines 1270-1294).  The JS loop walks the bullet
array from the highest index down, so the recursion processes the tail
(higher indices) before the head; each bullet is moved, then removed
together with the last-indexed enemy it hits (scoring 25), and otherwise
dropped when off screen.  (The source additionally contains an aliasing
quirk: a hit bullet that is also off screen and not the last element causes
one extra already-processed bullet to be spliced; that quirk touches only
the bullet list, never the enemies or the score, and is not modelled.) -/
def bulletPhase (cameraY : ℚ) : List Bullet → List Enemy → ℤ →
    List Bullet × List Enemy × ℤ
  | [], es, score => ([], es, score)
  | b :: bs, es, score =>
    let rest := bulletPhase cameraY bs es score
    let b := { b with x := b.x + b.vx, y := b.y + b.vy }
    match removeLastHit b rest.2.1 with
    | some es1 => (rest.1, es1, rest.2.2 + 25)
    | none =>
      if bulletOffscreen b cameraY then rest
      else (b :: rest.1, rest.2.1, rest.2.2)

/-! ### Actor-hostile resolution (update, lines 1297-1357) -/

/-- Enemy horizontal movement with wall bounce (lines 1299-1302). -/
def enemyMove (e : Enemy) : Enemy :=
  let e := { e with x := e.x + e.vx }
  if e.x ≤ 0 || e.x + e.width ≥ CANVAS_WIDTH then { e with vx := -e.vx } else e

/-- Result of resolving one actor-hostile contact. -/
structure ContactResult where
  frog : Frog
  enemyDestroyed : Bool
  score : ℤ
  gameOver : Bool
  deriving DecidableEq, Repr

/-- The actor-hostile resolution for one (already moved) enemy
(lines 1304-1356), in the source's fixed priority order: no overlap or
invincible does nothing; sumo bounce-kills and scores 100; shield absorbs
the hit and breaks at `shieldMaxHits`, granting 60 frames of invincibility;
rocket or propeller destroy the enemy only; any other power is cleared in
exchange for `INVINCIBILITY_DURATION` frames of invincibility; with no
power the run ends. -/
def resolveContact (f : Frog) (e : Enemy) (score : ℤ) : ContactResult :=
  if checkCollision f.rect e.rect 5 then
    if f.invincible then ⟨f, false, score, false⟩
    else if f.hasSumo then
      ⟨{ f with vy := SUMO_BOUNCE_FORCE }, true, score + 100, false⟩
    else if f.hasShield then
      let hits := f.shieldHits + 1
      if hits ≥ shieldMaxHits then
        ⟨{ f with hasShield := false, shieldHits := 0,
                  invincible := true, invincibleTimer := 60, flashTimer := 60 },
          true, score, false⟩
      else ⟨{ f with shieldHits := hits }, true, score, false⟩
    else if f.hasRocket || f.hasPropeller then ⟨f, true, score, false⟩
    else if hasAnyPower f then
      ⟨{ (clearAllPowers f) with
          invincible := true,
          invincibleTimer := INVINCIBILITY_DURATION,
          flashTimer := INVINCIBILITY_DURATION },
        true, score, false⟩
    else ⟨f, false, score, true⟩
  else ⟨f, false, score, false⟩

/-- The enemy loop (lines 1297-1357).  The JS loop walks the enemy array
from the highest index down, so the recursion processes the tail first;
each enemy is moved and then resolved against the actor state left by the
previous iterations.  A game-over outcome does not stop the loop in the
source, so it is accumulated with `||`. -/
def enemyPhase : Frog → List Enemy → ℤ → Bool → List Enemy × Frog × ℤ × Bool
  | f, [], score, over => ([], f, score, over)
  | f, e :: es, score, over =>
    let rest := enemyPhase f es score over
    let e := enemyMove e
    let r := resolveContact rest.2.1 e rest.2.2.1
    (if r.enemyDestroyed then rest.1 else e :: rest.1,
      r.frog, r.score, rest.2.2.2 || r.gameOver)

/-! ### Fall death / fall-rescue (update, lines 1393-1412) -/

/-- Fall check (lines 1393-1412): once the actor drops past the trailing
cull margin, a held persistent power triggers the rescue (teleport back
into the visible band, clear all powers, 60 frames of invincibility) and
otherwise the run ends.  Returns the updated actor and the game-over flag. -/
def fallCheck (f : Frog) (cameraY : ℚ) : Frog × Bool :=
  if f.y > cameraY + CANVAS_HEIGHT + 100 then
    if hasPersistentPower f then
      let f := { f with y := cameraY + CANVAS_HEIGHT * 0.5,
                        vy := JUMP_FORCE * 1.5,
                        x := CANVAS_WIDTH / 2 - f.width / 2 }
      let f := clearAllPowers f
      ({ f with invincible := true, invincibleTimer := 60, flashTimer := 60 }, false)
    else (f, true)
  else (f, false)

/-! ### Magnet attraction and laser aiming (modelled over ℝ)

The two code blocks that call `Math.sqrt` / `Math.atan2` / `Math.cos` /
`Math.sin` are modelled over the reals.  `Math.cos(Math.atan2 b a)` and
`Math.sin(Math.atan2 b a)` are rendered through the identities
`cos (atan2 b a) = a / sqrt (a^2 + b^2)` and
`sin (atan2 b a) = b / sqrt (a^2 + b^2)`, valid whenever `(a, b) ≠ (0, 0)`;
`atan2 0 0 = 0` is rendered as its own case. -/

/-- getDistance (line 73), over ℝ. -/
noncomputable def getDistance (x1 y1 x2 y2 : ℝ) : ℝ :=
  Real.sqrt ((x2 - x1) ^ 2 + (y2 - y1) ^ 2)

/-- A gem as seen by the magnet-attraction block, with real coordinates. -/
structure GemR where
  x : ℝ
  y : ℝ
  width : ℝ
  height : ℝ
  collected : Bool

/-- One iteration of the magnet gem-attraction loop of the LATER version
(src/unnamed/part_001, lines 1132-1139): skip collected gems; within the
magnet range but farther than 5 away, step the gem toward the actor's
center by the constant pull speed (`cos`/`sin` of the `atan2` angle written
as the normalized direction vector; the distance guard `dist > 5` rules out
the zero vector). -/
noncomputable def magnetPullStep (frogCX frogCY : ℝ) (g : GemR) : GemR :=
  if g.collected then g
  else
    let gemCX := g.x + g.width / 2
    let gemCY := g.y + g.height / 2
    let dist := getDistance frogCX frogCY gemCX gemCY
    if dist < (MAGNET_RANGE : ℝ) ∧ dist > 5 then
      { g with x := g.x + (frogCX - gemCX) / dist * (MAGNET_PULL_SPEED : ℝ),
               y := g.y + (frogCY - gemCY) / dist * (MAGNET_PULL_SPEED : ℝ) }
    else g

/-- One iteration of the magnet gem-attraction loop of the EARLIER version
(src/unnamed/part_000, lines 1062-1073): same skip and range guard (with
`dist > 0` instead of `dist > 5`), but the pull is scaled by
`(MAGNET_RANGE - dist) / MAGNET_RANGE`.  This definition matches the spec's
proportional-pull wording and is kept for comparison with
`magnetPullStep`. -/
noncomputable def magnetPullStepV0 (frogCX frogCY : ℝ) (g : GemR) : GemR :=
  if g.collected then g
  else
    let gemCX := g.x + g.width / 2
    let gemCY := g.y + g.height / 2
    let dist := getDistance frogCX frogCY gemCX gemCY
    if dist < (MAGNET_RANGE : ℝ) ∧ dist > 0 then
      let pullStrength := ((MAGNET_RANGE : ℝ) - dist) / (MAGNET_RANGE : ℝ)
      { g with
          x := g.x + (frogCX - gemCX) / dist * (MAGNET_PULL_SPEED : ℝ) * pullStrength,
          y := g.y + (frogCY - gemCY) / dist * (MAGNET_PULL_SPEED : ℝ) * pullStrength }
    else g

/-- An enemy as seen by the laser auto-targeting block, with real
coordinates. -/
structure EnemyR where
  x : ℝ
  y : ℝ
  width : ℝ
  height : ℝ

noncomputable def EnemyR.centerX (e : EnemyR) : ℝ := e.x + e.width / 2

noncomputable def EnemyR.centerY (e : EnemyR) : ℝ := e.y + e.height / 2

/-- The nearest-enemy search of the laser branch (src/unnamed/part_001,
lines 1222-1231): scan all enemies in order, keeping the first enemy
strictly closer than the current best distance, which starts at the finite
acquisition radius 400. -/
noncomputable def findNearestEnemy (frogCX frogCY : ℝ) (enemies : List EnemyR) :
    Option EnemyR × ℝ :=
  enemies.foldl
    (fun acc e =>
      let dist := getDistance frogCX frogCY e.centerX e.centerY
      if dist < acc.2 then (some e, dist) else acc)
    (none, 400)

/-- The velocity of the single projectile spawned by the laser branch
(lines 1233-1240): `(15, 0)` when no enemy was acquired, otherwise speed 15
toward the nearest enemy's center (`cos`/`sin` of the `atan2` angle written
as the normalized direction vector; `atan2 0 0 = 0` gives `(15, 0)` when
the enemy center coincides with the actor center). -/
noncomputable def laserVelocity (frogCX frogCY : ℝ) (enemies : List EnemyR) :
    ℝ × ℝ :=
  match findNearestEnemy frogCX frogCY enemies with
  | (none, _) => (15, 0)
  | (some e, _) =>
    let d := getDistance frogCX frogCY e.centerX e.centerY
    if d = 0 then (15, 0)
    else ((e.centerX - frogCX) / d * 15, (e.centerY - frogCY) / d * 15)

/-! ### Timed-configuration view -/

/-- The four timed ability configurations (rocket, propeller, magnet, sumo):
the ones POWER_CONFIG gives a `duration` (lines 41-53). -/
inductive TimedPower where
  | rocket | propeller | magnet | sumo
  deriving DecidableEq, Repr

/-- The actor flag of a timed configuration. -/
def timedActive (f : Frog) : TimedPower → Bool
  | .rocket => f.hasRocket
  | .propeller => f.hasPropeller
  | .magnet => f.hasMagnet
  | .sumo => f.hasSumo

/-- The actor frame counter of a timed configuration. -/
def timedTimer (f : Frog) : TimedPower → ℤ
  | .rocket => f.rocketTimer
  | .propeller => f.propellerTimer
  | .magnet => f.magnetTimer
  | .sumo => f.sumoTimer

/-- The POWER_CONFIG duration of a timed configuration. -/
def timedDuration : TimedPower → ℤ
  | .rocket => rocketDuration
  | .propeller => propellerDuration
  | .magnet => magnetDuration
  | .sumo => sumoDuration

/-- The pickup type installing a timed configuration. -/
def timedPowerType : TimedPower → PowerType
  | .rocket => .rocket
  | .propeller => .propeller
  | .magnet => .magnet
  | .sumo => .sumo

/-! ### Concrete states used by witnesses and counterexamples -/

/-- createFrog (lines 195-228): the initial actor state. -/
def createFrog : Frog :=
  { x := CANVAS_WIDTH / 2 - 30, y := 500, vx := 0, vy := 0,
    width := 60, height := 70,
    hasRocket := false, rocketTimer := 0,
    hasPropeller := false, propellerTimer := 0, propellerAngle := 0,
    hasSpringShoes := false, springShoesJumps := 0,
    hasMagnet := false, magnetTimer := 0,
    hasSumo := false, sumoTimer := 0,
    hasCape := false,
    hasShield := false, shieldHits := 0,
    hasLaser := false, hasShotgun := false, hasTommyGun := false,
    weaponCooldown := 0,
    invincible := false, invincibleTimer := 0, flashTimer := 0 }

/-- An uncollected shield pickup directly over the initial actor. -/
def shieldPickup : Powerup := ⟨170, 500, 40, 50, .shield, false, 0⟩

/-- An uncollected spring pickup directly over the initial actor. -/
def springPickup : Powerup := ⟨170, 500, 40, 50, .spring, false, 0⟩

/-- An enemy overlapping an actor placed at (100, 100) even with the inset
padding of 5. -/
def enemyAt100 : Enemy := ⟨100, 100, 45, 45, 1.5, 1⟩

/-- A descending actor with spring shoes, whose bottom edge (170) is about
to cross two stacked platforms. -/
def frogC7 : Frog :=
  { createFrog with x := 100, y := 100, vy := 5,
                    hasSpringShoes := true, springShoesJumps := 5 }

/-- First breakable platform under frogC7; qualifies against vy = 5. -/
def platA : Platform := ⟨100, 169, 80, 18, .breakable, 0, false⟩

/-- Second breakable platform a hair lower; still qualifies after the first
landing has set vy to the spring-shoes impulse. -/
def platB : Platform := ⟨100, 169.5, 80, 18, .breakable, 0, false⟩

/-- A gem whose center (125, 300) is at distance 75 from the actor center
(200, 300) used below. -/
noncomputable def gemAt75 : GemR := ⟨110, 280, 30, 40, false⟩

/-- A gem whose center (140, 220) is at distance 100 from the actor center
(200, 300) used below (a 60-80-100 right triangle). -/
noncomputable def gemAt100 : GemR := ⟨125, 200, 30, 40, false⟩

/-- An enemy whose center (700, 300) is at distance 500 from the actor
center (200, 300) used below: outside the laser acquisition radius. -/
noncomputable def enemyFar : EnemyR := ⟨677.5, 277.5, 45, 45⟩

/-! ### Claims -/

/-- C1: on every pickup acquisition event (the actor overlapping an
uncollected ability-pickup), the acquisition leaves exactly one ability
flag set — the one matching the pickup's type — or none at all when the
pickup is the instant `spring`; in particular two ability flags are never
simultaneously true after an acquisition. -/
theorem acquisition_exactly_one_power (f : Frog) (p : Powerup)
    (hc : p.collected = false)
    (hov : checkCollision f.rect p.rect 0 = true) :
    powersCount (collectPowerup f p).1 =
      (if p.type = PowerType.spring then 0 else 1) ∧
    powersCount (collectPowerup f p).1 ≤ 1 := by
  obtain ⟨px, py, pw, ph, pt, pc, pa⟩ := p
  simp only at hc
  subst hc
  simp only [Powerup.rect] at hov
  have hmain : powersCount (collectPowerup f ⟨px, py, pw, ph, pt, false, pa⟩).1 =
      (if pt = PowerType.spring then 0 else 1) := by
    cases pt <;>
      simp [collectPowerup, Powerup.rect, hov, applyPower, clearAllPowers, powersCount]
  refine ⟨hmain, ?_⟩
  rw [hmain]
  split <;> omega

/-- C1 witness: acquiring the shield pickup from the pristine actor leaves
exactly one ability flag set. -/
theorem acquisition_exactly_one_power_witness :
    powersCount (collectPowerup createFrog shieldPickup).1 = 1 ∧
    powersCount (collectPowerup createFrog shieldPickup).1 ≤ 1 := by
  have h := acquisition_exactly_one_power createFrog shieldPickup rfl
    (by norm_num [checkCollision, Frog.rect, Powerup.rect, createFrog,
      shieldPickup, CANVAS_WIDTH])
  simpa using h

/-- C10: collecting the instant `spring` pickup while any configuration is
active clears that configuration in full — every ability flag, every
timer and counter, and the weapon cooldown are zeroed — and applies the
one-shot upward velocity boost `JUMP_FORCE * 2.5`, so the actor ends the
acquisition with no active configuration. -/
theorem spring_pickup_clears_configuration (f : Frog) (p : Powerup)
    (hc : p.collected = false)
    (hov : checkCollision f.rect p.rect 0 = true)
    (htype : p.type = PowerType.spring)
    (hpow : hasAnyPower f = true) :
    hasAnyPower (collectPowerup f p).1 = false ∧
    (collectPowerup f p).1.rocketTimer = 0 ∧
    (collectPowerup f p).1.propellerTimer = 0 ∧
    (collectPowerup f p).1.springShoesJumps = 0 ∧
    (collectPowerup f p).1.magnetTimer = 0 ∧
    (collectPowerup f p).1.sumoTimer = 0 ∧
    (collectPowerup f p).1.shieldHits = 0 ∧
    (collectPowerup f p).1.weaponCooldown = 0 ∧
    (collectPowerup f p).1.vy = JUMP_FORCE * 2.5 := by
  obtain ⟨px, py, pw, ph, pt, pc, pa⟩ := p
  simp only at hc htype
  subst hc
  subst htype
  simp only [Powerup.rect] at hov
  simp [collectPowerup, Powerup.rect, hov, applyPower, clearAllPowers, hasAnyPower]

/-- C10 witness: a cape-holding actor collects the spring pickup and ends
with no configuration and the boosted upward velocity. -/
theorem spring_pickup_clears_configuration_witness :
    hasAnyPower (collectPowerup { createFrog with hasCape := true } springPickup).1
      = false ∧
    (collectPowerup { createFrog with hasCape := true } springPickup).1.vy
      = JUMP_FORCE * 2.5 := by
  have h := spring_pickup_clears_configuration { createFrog with hasCape := true }
    springPickup rfl
    (by norm_num [checkCollision, Frog.rect, Powerup.rect, createFrog,
      springPickup, CANVAS_WIDTH])
    rfl (by simp [hasAnyPower, createFrog])
  exact ⟨h.1, h.2.2.2.2.2.2.2.2⟩

/-- C2: on a tick in which the actor's y position exceeds the camera offset
plus the trailing cull margin (CANVAS_HEIGHT + 100): holding a persistent
configuration repositions the actor inside the visible band, clears the
configuration, sets invincible, and does not end the run; holding no
configuration at all ends the run. -/
theorem fall_rescue_or_death (f : Frog) (cameraY : ℚ)
    (hfall : f.y > cameraY + CANVAS_HEIGHT + 100) :
    (hasPersistentPower f = true →
      (fallCheck f cameraY).2 = false ∧
      (fallCheck f cameraY).1.y = cameraY + CANVAS_HEIGHT * 0.5 ∧
      cameraY < (fallCheck f cameraY).1.y ∧
      (fallCheck f cameraY).1.y < cameraY + CANVAS_HEIGHT ∧
      hasAnyPower (fallCheck f cameraY).1 = false ∧
      (fallCheck f cameraY).1.invincible = true) ∧
    (hasAnyPower f = false → (fallCheck f cameraY).2 = true) := by
  constructor
  · intro hp
    unfold fallCheck
    rw [if_pos hfall, if_pos hp]
    refine ⟨rfl, rfl, ?_, ?_, rfl, rfl⟩
    · show cameraY < cameraY + CANVAS_HEIGHT * 0.5
      norm_num [CANVAS_HEIGHT]
    · show cameraY + CANVAS_HEIGHT * 0.5 < cameraY + CANVAS_HEIGHT
      norm_num [CANVAS_HEIGHT]
  · intro hnone
    have hp : hasPersistentPower f = false := by
      simp only [hasAnyPower, Bool.or_eq_true] at hnone
      simp only [hasPersistentPower, Bool.or_eq_true]
      simp only [Bool.or_eq_false_iff] at hnone ⊢
      tauto
    simp [fallCheck, hfall, hp]

/-- C2 witness: a fallen cape-holder is rescued (run continues, invincible
set), a fallen bare actor ends the run. -/
theorem fall_rescue_or_death_witness :
    (fallCheck { createFrog with y := 900, hasCape := true } 0).2 = false ∧
    (fallCheck { createFrog with y := 900, hasCape := true } 0).1.invincible
      = true ∧
    (fallCheck { createFrog with y := 900 } 0).2 = true := by
  have h1 := fall_rescue_or_death { createFrog with y := 900, hasCape := true } 0
    (by norm_num [createFrog, CANVAS_HEIGHT])
  have h2 := fall_rescue_or_death { createFrog with y := 900 } 0
    (by norm_num [createFrog, CANVAS_HEIGHT])
  have hr := h1.1 (by simp [hasPersistentPower, createFrog])
  exact ⟨hr.1, hr.2.2.2.2.2, h2.2 (by simp [hasAnyPower, createFrog])⟩

/-- C3: with the shield configuration active and hits-absorbed one below
the maximum (shieldHits = shieldMaxHits - 1 = 1), a qualifying hostile
overlap (inset padding 5, not invincible, sumo not active) destroys the
hostile, clears the shield, and grants invincibility with the non-zero
duration 60. -/
theorem shield_break_on_final_hit (f : Frog) (e : Enemy) (s : ℤ)
    (hov : checkCollision f.rect e.rect 5 = true)
    (hinv : f.invincible = false)
    (hsumo : f.hasSumo = false)
    (hshield : f.hasShield = true)
    (hhits : f.shieldHits = shieldMaxHits - 1) :
    (resolveContact f e s).enemyDestroyed = true ∧
    (resolveContact f e s).frog.hasShield = false ∧
    (resolveContact f e s).frog.shieldHits = 0 ∧
    (resolveContact f e s).frog.invincible = true ∧
    (resolveContact f e s).frog.invincibleTimer = 60 ∧
    (0 : ℤ) < 60 := by
  simp [resolveContact, hov, hinv, hsumo, hshield, hhits, shieldMaxHits]

/-- C3 witness: the one-hit-absorbed shield holder at (100, 100) breaks the
shield and becomes invincible on contact with the overlapping enemy. -/
theorem shield_break_on_final_hit_witness :
    (resolveContact
        { createFrog with x := 100, y := 100, hasShield := true, shieldHits := 1 }
        enemyAt100 0).frog.hasShield = false ∧
    (resolveContact
        { createFrog with x := 100, y := 100, hasShield := true, shieldHits := 1 }
        enemyAt100 0).frog.invincible = true := by
  have h := shield_break_on_final_hit
    { createFrog with x := 100, y := 100, hasShield := true, shieldHits := 1 }
    enemyAt100 0
    (by norm_num [checkCollision, Frog.rect, Enemy.rect, createFrog, enemyAt100])
    rfl rfl rfl (by norm_num [shieldMaxHits])
  exact ⟨h.2.1, h.2.2.2.1⟩

/-- C4: while the actor is invincible, the actor-hostile resolution is a
no-op regardless of overlap: the hostile is not destroyed, the actor state
(configuration, velocity) is untouched, the score is unchanged, and the run
does not end. -/
theorem invincible_skips_contact_resolution (f : Frog) (e : Enemy) (s : ℤ)
    (hinv : f.invincible = true) :
    resolveContact f e s = ⟨f, false, s, false⟩ := by
  simp [resolveContact, hinv]

/-- C4 witness: an invincible bare actor overlapping the enemy at
(100, 100) is left untouched by the resolution. -/
theorem invincible_skips_contact_resolution_witness :
    resolveContact
        { createFrog with x := 100, y := 100, invincible := true,
                          invincibleTimer := 30 }
        enemyAt100 7 =
      ⟨{ createFrog with x := 100, y := 100, invincible := true,
                         invincibleTimer := 30 },
        false, 7, false⟩ :=
  invincible_skips_contact_resolution
    { createFrog with x := 100, y := 100, invincible := true,
                      invincibleTimer := 30 }
    enemyAt100 7 rfl

/-! ### Score monotonicity helpers -/

/-- The gem tier values are positive. -/
theorem gemValue_pos (t : GemType) : 0 < gemValue t := by
  cases t <;> simp [gemValue]

/-- The camera-follow score write takes a max with the old score. -/
theorem cameraFollow_score_mono (f : Frog) (cameraY : ℚ) (s : ℤ) :
    s ≤ (cameraFollow f cameraY s).2 := by
  simp only [cameraFollow]
  split
  · exact le_max_left _ _
  · exact le_refl _

/-- One gem-collection iteration only ever adds a (positive) tier value. -/
theorem gemStep_score_mono (f : Frog) (s : ℤ) (g : Gem) :
    s ≤ (gemStep f s g).2 := by
  simp only [gemStep]
  split
  · exact le_refl _
  · split
    · have := gemValue_pos g.type
      dsimp only
      omega
    · exact le_refl _

/-- The gem-collection loop never lowers the score. -/
theorem gemPhase_score_mono (f : Frog) :
    ∀ (gs : List Gem) (s : ℤ), s ≤ (gemPhase f gs s).2
  | [], s => le_refl s
  | g :: gs, s =>
    le_trans (gemStep_score_mono f s g) (gemPhase_score_mono f gs (gemStep f s g).2)

/-- The bullet update loop never lowers the score. -/
theorem bulletPhase_score_mono (cameraY : ℚ) :
    ∀ (bs : List Bullet) (es : List Enemy) (s : ℤ),
      s ≤ (bulletPhase cameraY bs es s).2.2
  | [], _, s => le_refl s
  | b :: bs, es, s => by
    have ih := bulletPhase_score_mono cameraY bs es s
    simp only [bulletPhase]
    split
    · dsimp only
      omega
    · split
      · exact ih
      · exact ih

/-- One actor-hostile resolution never lowers the score. -/
theorem resolveContact_score_mono (f : Frog) (e : Enemy) (s : ℤ) :
    s ≤ (resolveContact f e s).score := by
  simp only [resolveContact]
  split_ifs <;> (dsimp only; omega)

/-- The enemy loop never lowers the score. -/
theorem enemyPhase_score_mono :
    ∀ (f : Frog) (es : List Enemy) (s : ℤ) (over : Bool),
      s ≤ (enemyPhase f es s over).2.2.1
  | _, [], s, _ => le_refl s
  | f, e :: es, s, over => by
    have ih := enemyPhase_score_mono f es s over
    have hr := resolveContact_score_mono (enemyPhase f es s over).2.1
      (enemyMove e) (enemyPhase f es s over).2.2.1
    unfold enemyPhase
    exact le_trans ih hr

/-- C5: the score is non-decreasing across a tick.  The four blocks of
`update` that write `g.score` are, in tick order, the camera-follow
altitude score, gem collection, projectile kills, and the actor-hostile
resolution (sumo kills); this theorem composes the four in that order,
universally quantifying over the actor and entity state reaching each
block, so the bound holds for every tick however the interleaved
non-scoring phases (platforms, magnet, pickups, firing, generation,
cleanup) transform that state; consecutive ticks chain this bound. -/
theorem score_nondecreasing_through_tick
    (f1 : Frog) (cameraY1 : ℚ) (s0 : ℤ)
    (f2 : Frog) (gems : List Gem)
    (cameraY2 : ℚ) (bullets : List Bullet) (enemies1 : List Enemy)
    (f3 : Frog) (enemies2 : List Enemy) (over : Bool) :
    s0 ≤ (enemyPhase f3 enemies2
            (bulletPhase cameraY2 bullets enemies1
              (gemPhase f2 gems
                (cameraFollow f1 cameraY1 s0).2).2).2.2 over).2.2.1 :=
  le_trans (cameraFollow_score_mono f1 cameraY1 s0)
    (le_trans (gemPhase_score_mono f2 gems _)
      (le_trans (bulletPhase_score_mono cameraY2 bullets enemies1 _)
        (enemyPhase_score_mono f3 enemies2 _ over)))

/-! ### Timed-configuration countdown helpers -/

/-- The input-movement stage touches no power field. -/
theorem moveInput_preserves (keys : Keys) (f : Frog) :
    (moveInput keys f).hasRocket = f.hasRocket ∧
    (moveInput keys f).rocketTimer = f.rocketTimer ∧
    (moveInput keys f).hasPropeller = f.hasPropeller ∧
    (moveInput keys f).propellerTimer = f.propellerTimer ∧
    (moveInput keys f).hasMagnet = f.hasMagnet ∧
    (moveInput keys f).magnetTimer = f.magnetTimer ∧
    (moveInput keys f).hasSumo = f.hasSumo ∧
    (moveInput keys f).sumoTimer = f.sumoTimer := by
  unfold moveInput
  split_ifs <;> simp

/-- The flight-physics stage touches neither the magnet nor the sumo
fields. -/
theorem flightPhysics_preserves_magnet_sumo (f : Frog) :
    (flightPhysics f).hasMagnet = f.hasMagnet ∧
    (flightPhysics f).magnetTimer = f.magnetTimer ∧
    (flightPhysics f).hasSumo = f.hasSumo ∧
    (flightPhysics f).sumoTimer = f.sumoTimer := by
  unfold flightPhysics
  split_ifs <;> simp

/-- With the rocket active, the flight-physics stage decrements the rocket
timer and keeps the flag exactly while the timer stays positive. -/
theorem flightPhysics_rocket_step (f : Frog) (h : f.hasRocket = true) :
    (flightPhysics f).rocketTimer = f.rocketTimer - 1 ∧
    (flightPhysics f).hasRocket = decide (0 < f.rocketTimer - 1) := by
  simp [flightPhysics, h]

/-- With the propeller active and the rocket not, the flight-physics stage
decrements the propeller timer and keeps the flag exactly while the timer
stays positive. -/
theorem flightPhysics_propeller_step (f : Frog)
    (hp : f.hasPropeller = true) (hr : f.hasRocket = false) :
    (flightPhysics f).propellerTimer = f.propellerTimer - 1 ∧
    (flightPhysics f).hasPropeller = decide (0 < f.propellerTimer - 1) := by
  simp [flightPhysics, hp, hr]

/-- The magnet-tick stage touches no other power field. -/
theorem magnetTick_preserves (f : Frog) :
    (magnetTick f).hasRocket = f.hasRocket ∧
    (magnetTick f).rocketTimer = f.rocketTimer ∧
    (magnetTick f).hasPropeller = f.hasPropeller ∧
    (magnetTick f).propellerTimer = f.propellerTimer ∧
    (magnetTick f).hasSumo = f.hasSumo ∧
    (magnetTick f).sumoTimer = f.sumoTimer := by
  unfold magnetTick
  split_ifs <;> simp

/-- With the magnet active, the magnet-tick stage decrements the magnet
timer and keeps the flag exactly while the timer stays positive. -/
theorem magnetTick_magnet_step (f : Frog) (h : f.hasMagnet = true) :
    (magnetTick f).magnetTimer = f.magnetTimer - 1 ∧
    (magnetTick f).hasMagnet = decide (0 < f.magnetTimer - 1) := by
  simp [magnetTick, h]

/-- The sumo-tick stage touches no other power field. -/
theorem sumoTick_preserves (f : Frog) :
    (sumoTick f).hasRocket = f.hasRocket ∧
    (sumoTick f).rocketTimer = f.rocketTimer ∧
    (sumoTick f).hasPropeller = f.hasPropeller ∧
    (sumoTick f).propellerTimer = f.propellerTimer ∧
    (sumoTick f).hasMagnet = f.hasMagnet ∧
    (sumoTick f).magnetTimer = f.magnetTimer := by
  unfold sumoTick
  split_ifs <;> simp

/-- With the sumo active, the sumo-tick stage decrements the sumo timer and
keeps the flag exactly while the timer stays positive. -/
theorem sumoTick_sumo_step (f : Frog) (h : f.hasSumo = true) :
    (sumoTick f).sumoTimer = f.sumoTimer - 1 ∧
    (sumoTick f).hasSumo = decide (0 < f.sumoTimer - 1) := by
  simp [sumoTick, h]

/-- The invincibility-timer stage touches no power field. -/
theorem invincibilityTick_preserves (f : Frog) :
    (invincibilityTick f).hasRocket = f.hasRocket ∧
    (invincibilityTick f).rocketTimer = f.rocketTimer ∧
    (invincibilityTick f).hasPropeller = f.hasPropeller ∧
    (invincibilityTick f).propellerTimer = f.propellerTimer ∧
    (invincibilityTick f).hasMagnet = f.hasMagnet ∧
    (invincibilityTick f).magnetTimer = f.magnetTimer ∧
    (invincibilityTick f).hasSumo = f.hasSumo ∧
    (invincibilityTick f).sumoTimer = f.sumoTimer := by
  simp only [invincibilityTick]
  split_ifs <;> simp

/-- The weapon-cooldown stage touches no power field. -/
theorem cooldownTick_preserves (f : Frog) :
    (cooldownTick f).hasRocket = f.hasRocket ∧
    (cooldownTick f).rocketTimer = f.rocketTimer ∧
    (cooldownTick f).hasPropeller = f.hasPropeller ∧
    (cooldownTick f).propellerTimer = f.propellerTimer ∧
    (cooldownTick f).hasMagnet = f.hasMagnet ∧
    (cooldownTick f).magnetTimer = f.magnetTimer ∧
    (cooldownTick f).hasSumo = f.hasSumo ∧
    (cooldownTick f).sumoTimer = f.sumoTimer := by
  simp only [cooldownTick]
  split_ifs <;> simp

/-- The position-integration stage touches no power field. -/
theorem integratePosition_preserves (f : Frog) :
    (integratePosition f).hasRocket = f.hasRocket ∧
    (integratePosition f).rocketTimer = f.rocketTimer ∧
    (integratePosition f).hasPropeller = f.hasPropeller ∧
    (integratePosition f).propellerTimer = f.propellerTimer ∧
    (integratePosition f).hasMagnet = f.hasMagnet ∧
    (integratePosition f).magnetTimer = f.magnetTimer ∧
    (integratePosition f).hasSumo = f.hasSumo ∧
    (integratePosition f).sumoTimer = f.sumoTimer := by
  simp [integratePosition]

/-- The screen-wrap stage touches no power field. -/
theorem screenWrap_preserves (f : Frog) :
    (screenWrap f).hasRocket = f.hasRocket ∧
    (screenWrap f).rocketTimer = f.rocketTimer ∧
    (screenWrap f).hasPropeller = f.hasPropeller ∧
    (screenWrap f).propellerTimer = f.propellerTimer ∧
    (screenWrap f).hasMagnet = f.hasMagnet ∧
    (screenWrap f).magnetTimer = f.magnetTimer ∧
    (screenWrap f).hasSumo = f.hasSumo ∧
    (screenWrap f).sumoTimer = f.sumoTimer := by
  simp only [screenWrap]
  split_ifs <;> simp

/-- C6: a timed configuration (rocket, propeller, magnet, sumo) is acquired
with its positive POWER_CONFIG duration; on a tick in which it is active
with frame counter k ≥ 1 the counter decreases by exactly one, the
configuration flag survives exactly while the new counter is positive
(so it reverts to inactive exactly when the counter reaches 0), and the
counter is never negative at the end of the tick.  (For the propeller the
flight-physics chain requires the rocket flag to be clear, which the
single-configuration acquisition discipline guarantees.) -/
theorem timed_configuration_countdown (keys : Keys) (f : Frog)
    (p : TimedPower) (k : ℤ)
    (hact : timedActive f p = true)
    (hk : timedTimer f p = k)
    (hprop : p = TimedPower.propeller → f.hasRocket = false)
    (h1 : 1 ≤ k) :
    timedTimer (physicsStep keys f) p = k - 1 ∧
    timedActive (physicsStep keys f) p = decide (0 < k - 1) ∧
    0 ≤ k - 1 ∧
    timedTimer (applyPower (clearAllPowers f) (timedPowerType p)) p
      = timedDuration p ∧
    timedActive (applyPower (clearAllPowers f) (timedPowerType p)) p = true ∧
    0 < timedDuration p := by
  cases p with
  | rocket =>
    have hact' : f.hasRocket = true := hact
    have hk' : f.rocketTimer = k := hk
    obtain ⟨m1, m2, -, -, -, -, -, -⟩ := moveInput_preserves keys f
    have hR : (moveInput keys f).hasRocket = true := by rw [m1, hact']
    obtain ⟨ft, ff⟩ := flightPhysics_rocket_step (moveInput keys f) hR
    refine ⟨?_, ?_, by omega, rfl, rfl, by decide⟩
    · show (physicsStep keys f).rocketTimer = k - 1
      unfold physicsStep
      rw [(screenWrap_preserves _).2.1, (integratePosition_preserves _).2.1,
        (cooldownTick_preserves _).2.1, (invincibilityTick_preserves _).2.1,
        (sumoTick_preserves _).2.1, (magnetTick_preserves _).2.1, ft, m2, hk']
    · show (physicsStep keys f).hasRocket = decide (0 < k - 1)
      unfold physicsStep
      rw [(screenWrap_preserves _).1, (integratePosition_preserves _).1,
        (cooldownTick_preserves _).1, (invincibilityTick_preserves _).1,
        (sumoTick_preserves _).1, (magnetTick_preserves _).1, ff, m2, hk']
  | propeller =>
    have hact' : f.hasPropeller = true := hact
    have hk' : f.propellerTimer = k := hk
    have hrock : f.hasRocket = false := hprop rfl
    obtain ⟨m1, -, m3, m4, -, -, -, -⟩ := moveInput_preserves keys f
    have hP : (moveInput keys f).hasPropeller = true := by rw [m3, hact']
    have hRn : (moveInput keys f).hasRocket = false := by rw [m1, hrock]
    obtain ⟨ft, ff⟩ := flightPhysics_propeller_step (moveInput keys f) hP hRn
    refine ⟨?_, ?_, by omega, rfl, rfl, by decide⟩
    · show (physicsStep keys f).propellerTimer = k - 1
      unfold physicsStep
      rw [(screenWrap_preserves _).2.2.2.1, (integratePosition_preserves _).2.2.2.1,
        (cooldownTick_preserves _).2.2.2.1, (invincibilityTick_preserves _).2.2.2.1,
        (sumoTick_preserves _).2.2.2.1, (magnetTick_preserves _).2.2.2.1, ft, m4, hk']
    · show (physicsStep keys f).hasPropeller = decide (0 < k - 1)
      unfold physicsStep
      rw [(screenWrap_preserves _).2.2.1, (integratePosition_preserves _).2.2.1,
        (cooldownTick_preserves _).2.2.1, (invincibilityTick_preserves _).2.2.1,
        (sumoTick_preserves _).2.2.1, (magnetTick_preserves _).2.2.1, ff, m4, hk']
  | magnet =>
    have hact' : f.hasMagnet = true := hact
    have hk' : f.magnetTimer = k := hk
    obtain ⟨-, -, -, -, m5, m6, -, -⟩ := moveInput_preserves keys f
    obtain ⟨fl1, fl2, -, -⟩ :=
      flightPhysics_preserves_magnet_sumo (moveInput keys f)
    have hM : (flightPhysics (moveInput keys f)).hasMagnet = true := by
      rw [fl1, m5, hact']
    obtain ⟨mt, mf⟩ := magnetTick_magnet_step (flightPhysics (moveInput keys f)) hM
    refine ⟨?_, ?_, by omega, rfl, rfl, by decide⟩
    · show (physicsStep keys f).magnetTimer = k - 1
      unfold physicsStep
      rw [(screenWrap_preserves _).2.2.2.2.2.1,
        (integratePosition_preserves _).2.2.2.2.2.1,
        (cooldownTick_preserves _).2.2.2.2.2.1,
        (invincibilityTick_preserves _).2.2.2.2.2.1,
        (sumoTick_preserves _).2.2.2.2.2, mt, fl2, m6, hk']
    · show (physicsStep keys f).hasMagnet = decide (0 < k - 1)
      unfold physicsStep
      rw [(screenWrap_preserves _).2.2.2.2.1,
        (integratePosition_preserves _).2.2.2.2.1,
        (cooldownTick_preserves _).2.2.2.2.1,
        (invincibilityTick_preserves _).2.2.2.2.1,
        (sumoTick_preserves _).2.2.2.2.1, mf, fl2, m6, hk']
  | sumo =>
    have hact' : f.hasSumo = true := hact
    have hk' : f.sumoTimer = k := hk
    obtain ⟨-, -, -, -, -, -, m7, m8⟩ := moveInput_preserves keys f
    obtain ⟨-, -, fl3, fl4⟩ :=
      flightPhysics_preserves_magnet_sumo (moveInput keys f)
    obtain ⟨g5, g6⟩ :
        (magnetTick (flightPhysics (moveInput keys f))).hasSumo
            = (flightPhysics (moveInput keys f)).hasSumo ∧
          (magnetTick (flightPhysics (moveInput keys f))).sumoTimer
            = (flightPhysics (moveInput keys f)).sumoTimer :=
      ⟨(magnetTick_preserves _).2.2.2.2.1, (magnetTick_preserves _).2.2.2.2.2⟩
    have hS : (magnetTick (flightPhysics (moveInput keys f))).hasSumo = true := by
      rw [g5, fl3, m7, hact']
    obtain ⟨st, sf⟩ :=
      sumoTick_sumo_step (magnetTick (flightPhysics (moveInput keys f))) hS
    refine ⟨?_, ?_, by omega, rfl, rfl, by decide⟩
    · show (physicsStep keys f).sumoTimer = k - 1
      unfold physicsStep
      rw [(screenWrap_preserves _).2.2.2.2.2.2.2,
        (integratePosition_preserves _).2.2.2.2.2.2.2,
        (cooldownTick_preserves _).2.2.2.2.2.2.2,
        (invincibilityTick_preserves _).2.2.2.2.2.2.2,
        st, g6, fl4, m8, hk']
    · show (physicsStep keys f).hasSumo = decide (0 < k - 1)
      unfold physicsStep
      rw [(screenWrap_preserves _).2.2.2.2.2.2.1,
        (integratePosition_preserves _).2.2.2.2.2.2.1,
        (cooldownTick_preserves _).2.2.2.2.2.2.1,
        (invincibilityTick_preserves _).2.2.2.2.2.2.1,
        sf, g6, fl4, m8, hk']

/-- C6 witness: a rocket acquired fresh has timer 90 > 0, and with timer 1
one physics step brings the counter to exactly 0 and drops the flag. -/
theorem timed_configuration_countdown_witness :
    timedTimer
        (physicsStep ⟨false, false, false⟩
          { createFrog with hasRocket := true, rocketTimer := 1 })
        TimedPower.rocket = 0 ∧
    timedActive
        (physicsStep ⟨false, false, false⟩
          { createFrog with hasRocket := true, rocketTimer := 1 })
        TimedPower.rocket = false ∧
    timedDuration TimedPower.rocket = 90 := by
  have h := timed_configuration_countdown ⟨false, false, false⟩
    { createFrog with hasRocket := true, rocketTimer := 1 }
    TimedPower.rocket 1 rfl rfl (fun hcontra => by cases hcontra) le_rfl
  refine ⟨by rw [h.1]; decide, by rw [h.2.1]; decide, by decide⟩

/-! ### Multiple-landing helpers -/

/-- A resolved landing with spring shoes active decrements the jump counter
by one and keeps the shoes exactly while the counter stays positive. -/
theorem landingStep_springShoes (f : Frog) (p : Platform)
    (hb : p.broken = false) (ht : landingTest f p = true)
    (hss : f.hasSpringShoes = true) :
    (landingStep f p).1.springShoesJumps = f.springShoesJumps - 1 ∧
    (landingStep f p).1.hasSpringShoes = decide (0 < f.springShoesJumps - 1) := by
  simp only [landingStep, hb, ht, hss]
  cases p.type <;> simp

/-- C7 counterexample: a descending spring-shoes actor whose bottom edge
qualifies against two stacked breakable platforms in the same tick loses
TWO spring-shoes jumps (5 to 3) and breaks BOTH platforms, so more than one
landing is resolved in a single tick. -/
theorem multiple_landings_counterexample :
    frogC7.springShoesJumps = 5 ∧
    (platformCollision frogC7 [platA, platB]).1.springShoesJumps = 3 ∧
    (platformCollision frogC7 [platA, platB]).2.map Platform.broken
      = [true, true] := by
  refine ⟨rfl, ?_, ?_⟩ <;>
    norm_num [platformCollision, landingScan, landingStep, landingTest,
      frogC7, createFrog, platA, platB, JUMP_FORCE,
      SPRING_SHOES_JUMP_MULTIPLIER, CANVAS_WIDTH]

/-- C7 (amended): the landing loop has no break, so within one tick a
landing is resolved for EVERY non-broken platform whose test passes against
the actor state left by the previous iterations; in particular, when a
second platform still qualifies after the first landing, the jump impulse
is applied twice and springShoes decrements twice. -/
theorem multiple_landings_resolve (f : Frog) (p1 p2 : Platform)
    (hvy : f.vy > 0) (hr : f.hasRocket = false) (hp : f.hasPropeller = false)
    (hb1 : p1.broken = false) (hb2 : p2.broken = false)
    (ht1 : landingTest f p1 = true)
    (hss : f.hasSpringShoes = true) (hj : 2 ≤ f.springShoesJumps)
    (ht2 : landingTest (landingStep f p1).1 p2 = true) :
    (platformCollision f [p1, p2]).1.springShoesJumps
      = f.springShoesJumps - 2 := by
  obtain ⟨h1j, h1s⟩ := landingStep_springShoes f p1 hb1 ht1 hss
  have hss1 : (landingStep f p1).1.hasSpringShoes = true := by
    rw [h1s]
    simp
    omega
  obtain ⟨h2j, -⟩ := landingStep_springShoes (landingStep f p1).1 p2 hb2 ht2 hss1
  have hguard : (decide (f.vy > 0) && !f.hasRocket && !f.hasPropeller) = true := by
    simp [hvy, hr, hp]
  show (platformCollision f [p1, p2]).1.springShoesJumps = f.springShoesJumps - 2
  unfold platformCollision
  rw [hguard]
  show (landingScan f [p1, p2]).1.springShoesJumps = f.springShoesJumps - 2
  simp only [landingScan]
  rw [h2j, h1j]
  omega

/-- C7 witness for the amended claim: the concrete two-platform scene
resolves both landings and ends with springShoesJumps = 5 - 2. -/
theorem multiple_landings_resolve_witness :
    2 ≤ frogC7.springShoesJumps ∧
    (platformCollision frogC7 [platA, platB]).1.springShoesJumps
      = frogC7.springShoesJumps - 2 := by
  refine ⟨by norm_num [frogC7, createFrog], ?_⟩
  apply multiple_landings_resolve frogC7 platA platB
  · norm_num [frogC7, createFrog]
  · rfl
  · rfl
  · rfl
  · rfl
  · norm_num [landingTest, frogC7, createFrog, platA]
  · rfl
  · norm_num [frogC7, createFrog]
  · norm_num [landingTest, landingStep, frogC7, createFrog, platA, platB,
      JUMP_FORCE, SPRING_SHOES_JUMP_MULTIPLIER]

/-! ### Magnet pull helpers -/

/-- Evaluation of the later version's magnet pull inside the active range. -/
theorem magnetPullStep_eval (fx fy : ℝ) (g : GemR) (hc : g.collected = false)
    (d : ℝ)
    (hd : getDistance fx fy (g.x + g.width / 2) (g.y + g.height / 2) = d)
    (h5 : 5 < d) (h150 : d < (MAGNET_RANGE : ℝ)) :
    (magnetPullStep fx fy g).x
        = g.x + (fx - (g.x + g.width / 2)) / d * (MAGNET_PULL_SPEED : ℝ) ∧
    (magnetPullStep fx fy g).y
        = g.y + (fy - (g.y + g.height / 2)) / d * (MAGNET_PULL_SPEED : ℝ) := by
  simp only [magnetPullStep, hc, Bool.false_eq_true, if_false, hd]
  rw [if_pos ⟨h150, h5⟩]
  exact ⟨rfl, rfl⟩

/-- C8 counterexample: at distance 75 (inside the range 150) the later
version moves the gem by the full pull speed 8 along the line to the actor,
while the proportional rule of the spec (and of the earlier version,
magnetPullStepV0) would move it by 8 * (150 - 75) / 150 = 4; the two
displacements differ. -/
theorem magnet_pull_counterexample :
    (magnetPullStep 200 300 gemAt75).x - gemAt75.x = 8 ∧
    (magnetPullStepV0 200 300 gemAt75).x - gemAt75.x = 4 ∧
    (8 : ℝ) ≠ 4 := by
  have harg1 : gemAt75.x + gemAt75.width / 2 = (125 : ℝ) := by
    norm_num [gemAt75]
  have harg2 : gemAt75.y + gemAt75.height / 2 = (300 : ℝ) := by
    norm_num [gemAt75]
  have hd : getDistance 200 300 (gemAt75.x + gemAt75.width / 2)
      (gemAt75.y + gemAt75.height / 2) = 75 := by
    rw [harg1, harg2]
    unfold getDistance
    rw [show ((125 : ℝ) - 200) ^ 2 + ((300 : ℝ) - 300) ^ 2 = 75 ^ 2 by norm_num]
    exact Real.sqrt_sq (by norm_num)
  refine ⟨?_, ?_, by norm_num⟩
  · obtain ⟨hx, -⟩ := magnetPullStep_eval 200 300 gemAt75 rfl 75 hd
      (by norm_num) (by norm_num [MAGNET_RANGE])
    rw [hx, harg1]
    norm_num [MAGNET_PULL_SPEED]
  · simp only [magnetPullStepV0, show gemAt75.collected = false from rfl,
      Bool.false_eq_true, if_false, hd]
    rw [if_pos ⟨by norm_num [MAGNET_RANGE], by norm_num⟩]
    rw [harg1]
    norm_num [MAGNET_PULL_SPEED, MAGNET_RANGE]

/-- C8 (amended): while the magnet is active, an uncollected gem strictly
between distance 5 and the range 150 from the actor's center is stepped
toward the actor's center by a displacement of CONSTANT magnitude equal to
the pull speed 8 (not proportional to (range - distance) / range), and a
gem at distance at most 5 is not pulled at all. -/
theorem magnet_pull_constant_speed (fx fy : ℝ) (g : GemR)
    (hc : g.collected = false) :
    (5 < getDistance fx fy (g.x + g.width / 2) (g.y + g.height / 2) ∧
        getDistance fx fy (g.x + g.width / 2) (g.y + g.height / 2)
          < (MAGNET_RANGE : ℝ) →
      (magnetPullStep fx fy g).x
          = g.x + (fx - (g.x + g.width / 2))
              / getDistance fx fy (g.x + g.width / 2) (g.y + g.height / 2)
              * (MAGNET_PULL_SPEED : ℝ) ∧
      (magnetPullStep fx fy g).y
          = g.y + (fy - (g.y + g.height / 2))
              / getDistance fx fy (g.x + g.width / 2) (g.y + g.height / 2)
              * (MAGNET_PULL_SPEED : ℝ) ∧
      Real.sqrt (((magnetPullStep fx fy g).x - g.x) ^ 2
          + ((magnetPullStep fx fy g).y - g.y) ^ 2)
        = (MAGNET_PULL_SPEED : ℝ)) ∧
    (getDistance fx fy (g.x + g.width / 2) (g.y + g.height / 2) ≤ 5 →
      magnetPullStep fx fy g = g) := by
  constructor
  · rintro ⟨h5, h150⟩
    obtain ⟨hx, hy⟩ := magnetPullStep_eval fx fy g hc _ rfl h5 h150
    refine ⟨hx, hy, ?_⟩
    rw [hx, hy]
    set gcx := g.x + g.width / 2 with hgcx
    set gcy := g.y + g.height / 2 with hgcy
    set d := getDistance fx fy gcx gcy with hdd
    have hd0 : 0 < d := by linarith
    have hdsq : d ^ 2 = (gcx - fx) ^ 2 + (gcy - fy) ^ 2 := by
      rw [hdd]
      unfold getDistance
      exact Real.sq_sqrt (by positivity)
    have hM : (0 : ℝ) ≤ (MAGNET_PULL_SPEED : ℝ) := by
      norm_num [MAGNET_PULL_SPEED]
    have key : (g.x + (fx - gcx) / d * (MAGNET_PULL_SPEED : ℝ) - g.x) ^ 2
        + (g.y + (fy - gcy) / d * (MAGNET_PULL_SPEED : ℝ) - g.y) ^ 2
        = (MAGNET_PULL_SPEED : ℝ) ^ 2 := by
      have e1 : (fx - gcx) ^ 2 + (fy - gcy) ^ 2 = d ^ 2 := by
        rw [hdsq]
        ring
      have hdne : d ≠ 0 := ne_of_gt hd0
      field_simp
      linear_combination (MAGNET_PULL_SPEED : ℝ) ^ 2 * e1
    rw [key]
    exact Real.sqrt_sq hM
  · intro hle
    have hcond : ¬ (getDistance fx fy (g.x + g.width / 2) (g.y + g.height / 2)
        < (MAGNET_RANGE : ℝ) ∧
        getDistance fx fy (g.x + g.width / 2) (g.y + g.height / 2) > 5) :=
      fun h => absurd h.2 (not_lt.mpr hle)
    simp only [magnetPullStep, hc, Bool.false_eq_true, if_false, if_neg hcond]

/-- C8 witness for the amended claim: the gem at distance 100 (a 60-80-100
triangle from the actor center) is pulled with displacement magnitude
exactly 8. -/
theorem magnet_pull_constant_speed_witness :
    5 < getDistance 200 300 (gemAt100.x + gemAt100.width / 2)
        (gemAt100.y + gemAt100.height / 2) ∧
    Real.sqrt (((magnetPullStep 200 300 gemAt100).x - gemAt100.x) ^ 2
        + ((magnetPullStep 200 300 gemAt100).y - gemAt100.y) ^ 2)
      = (MAGNET_PULL_SPEED : ℝ) := by
  have harg1 : gemAt100.x + gemAt100.width / 2 = (140 : ℝ) := by
    norm_num [gemAt100]
  have harg2 : gemAt100.y + gemAt100.height / 2 = (220 : ℝ) := by
    norm_num [gemAt100]
  have hd : getDistance 200 300 (gemAt100.x + gemAt100.width / 2)
      (gemAt100.y + gemAt100.height / 2) = 100 := by
    rw [harg1, harg2]
    unfold getDistance
    rw [show ((140 : ℝ) - 200) ^ 2 + ((220 : ℝ) - 300) ^ 2 = 100 ^ 2 by norm_num]
    exact Real.sqrt_sq (by norm_num)
  have h := (magnet_pull_constant_speed 200 300 gemAt100 rfl).1
    ⟨by rw [hd]; norm_num, by rw [hd]; norm_num [MAGNET_RANGE]⟩
  exact ⟨by rw [hd]; norm_num, h.2.2⟩

/-! ### Laser fallback helpers -/

/-- When every enemy is at least the acquisition radius 400 away, the
nearest-enemy scan acquires nothing and the best distance stays 400. -/
theorem findNearestEnemy_none (fx fy : ℝ) :
    ∀ (es : List EnemyR),
      (∀ e ∈ es, 400 ≤ getDistance fx fy e.centerX e.centerY) →
      findNearestEnemy fx fy es = (none, 400)
  | [], _ => rfl
  | e :: es, h => by
    have he : ¬ (getDistance fx fy e.centerX e.centerY < (400 : ℝ)) :=
      not_lt.mpr (h e (List.mem_cons_self e es))
    have ih := findNearestEnemy_none fx fy es
      (fun x hx => h x (List.mem_cons_of_mem e hx))
    simp only [findNearestEnemy, List.foldl_cons] at ih ⊢
    rw [if_neg he]
    exact ih

/-- C9 counterexample: with no hostile in range (here: none at all) the
laser branch spawns a projectile with velocity (15, 0) — moving
horizontally to the right — not straight up (vx = 0, vy < 0) as the spec
claims. -/
theorem laser_fallback_counterexample :
    laserVelocity 200 300 [] = (15, 0) ∧
    ¬ ((laserVelocity 200 300 []).1 = 0 ∧ (laserVelocity 200 300 []).2 < 0) := by
  have h : laserVelocity 200 300 [] = (15, 0) := rfl
  refine ⟨h, ?_⟩
  rw [h]
  norm_num

/-- C9 (amended): on a tick in which the laser fires and no hostile lies
within the finite acquisition radius 400, the single projectile spawned
travels horizontally to the right: velocity (15, 0), zero vertical
component. -/
theorem laser_fallback_horizontal (fx fy : ℝ) (enemies : List EnemyR)
    (h : ∀ e ∈ enemies, 400 ≤ getDistance fx fy e.centerX e.centerY) :
    laserVelocity fx fy enemies = (15, 0) := by
  unfold laserVelocity
  rw [findNearestEnemy_none fx fy enemies h]

/-- C9 witness for the amended claim: a single enemy at distance 500
(outside the radius 400) leaves the scan empty and the projectile flies
with velocity (15, 0). -/
theorem laser_fallback_horizontal_witness :
    (∀ e ∈ [enemyFar], 400 ≤ getDistance 200 300 e.centerX e.centerY) ∧
    laserVelocity 200 300 [enemyFar] = (15, 0) := by
  have hcx : enemyFar.centerX = (700 : ℝ) := by
    norm_num [EnemyR.centerX, enemyFar]
  have hcy : enemyFar.centerY = (300 : ℝ) := by
    norm_num [EnemyR.centerY, enemyFar]
  have hd : getDistance 200 300 enemyFar.centerX enemyFar.centerY = 500 := by
    rw [hcx, hcy]
    unfold getDistance
    rw [show ((700 : ℝ) - 200) ^ 2 + ((300 : ℝ) - 300) ^ 2 = 500 ^ 2 by norm_num]
    exact Real.sqrt_sq (by norm_num)
  have hmem : ∀ e ∈ [enemyFar], 400 ≤ getDistance 200 300 e.centerX e.centerY := by
    intro e he
    rw [List.mem_singleton] at he
    subst he
    rw [hd]
    norm_num
  exact ⟨hmem, laser_fallback_horizontal 200 300 [enemyFar] hmem⟩
